import Mathlib

/-!
Verification development for the PotholeWatch repository.

The repository ships the React front end (`src/frontend`); the backend
Report Derivation & Lifecycle Engine described by the specification is not
part of the shipped sources, so its components (Metric Calculator, Severity
Classifier, Cost Estimator, Workflow State Machine, Lifecycle Engine) are
modelled here from the specification text.  The front-end dashboard logic
(status filters, map marker colours, statistics counters, status badges) is
embedded directly from the JSX sources.

Real-valued quantities (areas, money, coordinates) are embedded as rationals.
-/

namespace PotholeWatch

/-! ## Metric Calculator (spec 4.1) -/

/-- Modelled from the spec: the backend Metric Calculator is not in the
shipped sources.  A detector bounding box, dimensions in pixels. -/
structure BBox where
  bboxWidthPx : ℚ
  bboxHeightPx : ℚ
deriving DecidableEq

/-- Modelled from the spec: output record of `computeMetrics`. -/
structure Metrics where
  potholeCount : ℕ
  totalAreaM2 : ℚ
deriving DecidableEq

/-- Modelled from the spec: the Metric Calculator failure mode. -/
inductive MetricError where
  | InvalidInput
deriving DecidableEq

/-- Modelled from the spec: fixed real-world reference lane width, 3.5 m. -/
def LANE_WIDTH_M : ℚ := 7 / 2

/-- Modelled from the spec: physical area of one detection given the
meters-per-pixel scale. -/
def detectionAreaM2 (mpp : ℚ) (d : BBox) : ℚ :=
  d.bboxWidthPx * d.bboxHeightPx * mpp ^ 2

/-- Modelled from the spec: `computeMetrics` (spec 4.1).  Fails with
`InvalidInput` when `imageWidthPx <= 0` or some bbox dimension is negative;
otherwise sums the per-detection physical areas with
`metersPerPixel = LANE_WIDTH_M / imageWidthPx`. -/
def computeMetrics (detections : List BBox) (imageWidthPx : ℤ) :
    Except MetricError Metrics :=
  if imageWidthPx ≤ 0 ∨ ∃ d ∈ detections, d.bboxWidthPx < 0 ∨ d.bboxHeightPx < 0 then
    .error .InvalidInput
  else
    .ok { potholeCount := detections.length
        , totalAreaM2 := (detections.map (detectionAreaM2 (LANE_WIDTH_M / (imageWidthPx : ℚ)))).sum }

/-! ## Severity Classifier (spec 4.2) -/

/-- Modelled from the spec: the closed severity enumeration. -/
inductive Severity where
  | Minor
  | Moderate
  | Severe
  | Critical
deriving DecidableEq

/-- Modelled from the spec: `classify` (spec 4.2), half-open thresholds with
the lower bound inclusive in the higher tier. -/
def classify (totalAreaM2 : ℚ) : Severity :=
  if totalAreaM2 < 1/5 then .Minor
  else if totalAreaM2 < 1/2 then .Moderate
  else if totalAreaM2 < 1 then .Severe
  else .Critical

/-! ## Cost Estimator (spec 4.3) -/

/-- Modelled from the spec: material name by severity. -/
def materialFor : Severity → String
  | .Minor => "Cold Patch Asphalt"
  | .Moderate => "Cold Mix Asphalt"
  | .Severe => "Hot Mix Asphalt"
  | .Critical => "Premium Hot Mix"

/-- Modelled from the spec: cost per bag in INR, by severity. -/
def costPerBag : Severity → ℚ
  | .Minor => 350
  | .Moderate => 480
  | .Severe => 650
  | .Critical => 850

/-- Modelled from the spec: coverage per bag in square meters, by severity. -/
def coveragePerBag : Severity → ℚ
  | .Minor => 15/100
  | .Moderate => 12/100
  | .Severe => 10/100
  | .Critical => 8/100

/-- Modelled from the spec: output record of `estimate`. -/
structure CostEstimate where
  material : String
  bagsRequired : ℤ
  estimatedCostInr : ℚ
deriving DecidableEq

/-- Modelled from the spec: `estimate` (spec 4.3),
`bagsRequired = ceil(totalAreaM2 / coveragePerBag)` and
`estimatedCostInr = bagsRequired * costPerBag`. -/
def estimate (severity : Severity) (totalAreaM2 : ℚ) : CostEstimate :=
  { material := materialFor severity
  , bagsRequired := ⌈totalAreaM2 / coveragePerBag severity⌉
  , estimatedCostInr := (⌈totalAreaM2 / coveragePerBag severity⌉ : ℚ) * costPerBag severity }

theorem coveragePerBag_pos (s : Severity) : 0 < coveragePerBag s := by
  cases s <;> norm_num [coveragePerBag]

/-! ## Workflow State Machine (spec 4.4) and Lifecycle Engine (spec 4.6) -/

/-- Modelled from the spec: primary Report status. -/
inductive Status where
  | Pending
  | Reported
  | Inspected
  | InProgress
  | Resolved
deriving DecidableEq

/-- Modelled from the spec: secondary drone-assignment flag. -/
inductive DroneStatus where
  | None
  | Assigned
  | InProgress
  | Complete
deriving DecidableEq

/-- Modelled from the spec: the six workflow actions. -/
inductive WorkflowAction where
  | notify_authorities
  | assign_drone
  | dispatch_drone
  | inspection_done
  | schedule_repair
  | repair_done
deriving DecidableEq

/-- Modelled from the spec: workflow and engine failure modes (spec 7). -/
inductive WorkflowError where
  | IllegalTransition
  | TerminalState
  | NotFound
deriving DecidableEq

/-- Modelled from the spec: string tag recorded in the audit trail. -/
def actionTag : WorkflowAction → String
  | .notify_authorities => "notify_authorities"
  | .assign_drone => "assign_drone"
  | .dispatch_drone => "dispatch_drone"
  | .inspection_done => "inspection_done"
  | .schedule_repair => "schedule_repair"
  | .repair_done => "repair_done"

/-- Modelled from the spec: an AuditEntry, immutable once appended. -/
structure AuditEntry where
  action : String
  actorId : String
  notes : Option String
  timestamp : ℕ
deriving DecidableEq

/-- Modelled from the spec: geographic coordinates. -/
structure Coordinates where
  lat : ℚ
  lng : ℚ
deriving DecidableEq

/-- Modelled from the spec: the detection summary frozen at creation time. -/
structure DetectionSummary where
  potholeCount : ℕ
  totalAreaM2 : ℚ
  confidencePercent : ℚ
deriving DecidableEq

/-- Modelled from the spec: the central Report entity (spec 3). -/
structure Report where
  id : String
  reporterId : String
  location : String
  coordinates : Coordinates
  detectionSummary : DetectionSummary
  severity : Severity
  material : String
  bagsRequired : ℤ
  estimatedCostInr : ℚ
  status : Status
  droneStatus : DroneStatus
  audit : List AuditEntry
  processedImageUrl : String
  createdAt : ℕ
deriving DecidableEq

/-- Modelled from the spec: the transition table of spec 4.4, evaluated
against the current status.  Any action against `Resolved` fails with
`TerminalState`; a failed precondition fails with `IllegalTransition`.
Returns the new primary status and drone status on success. -/
def transitionResult (r : Report) (a : WorkflowAction) :
    Except WorkflowError (Status × DroneStatus) :=
  if r.status = .Resolved then .error .TerminalState
  else
    match a with
    | .notify_authorities =>
        if r.status = .Pending ∨ r.status = .Reported then
          .ok (.Reported, r.droneStatus)
        else .error .IllegalTransition
    | .assign_drone =>
        if r.status = .Pending then .ok (r.status, .Assigned)
        else .error .IllegalTransition
    | .dispatch_drone => .ok (r.status, .InProgress)
    | .inspection_done =>
        if r.status = .Reported ∨ r.droneStatus = .InProgress then
          .ok (.Inspected, r.droneStatus)
        else .error .IllegalTransition
    | .schedule_repair =>
        if r.status = .Inspected then .ok (.InProgress, r.droneStatus)
        else .error .IllegalTransition
    | .repair_done =>
        if r.status = .InProgress then
          .ok (.Resolved, if r.droneStatus = .None then .None else .Complete)
        else .error .IllegalTransition

/-- Modelled from the spec: `applyAction` on a single Report (spec 4.4/4.6).
On success the new status and drone status are written and exactly one
AuditEntry is appended; on failure the error is propagated. -/
def applyAction (r : Report) (a : WorkflowAction) (actorId : String)
    (notes : Option String) (timestamp : ℕ) : Except WorkflowError Report :=
  match transitionResult r a with
  | .error e => .error e
  | .ok (s, d) =>
      .ok { r with
            status := s
          , droneStatus := d
          , audit := r.audit ++ [⟨actionTag a, actorId, notes, timestamp⟩] }

/-- Modelled from the spec: the Lifecycle Engine operating against the Report
Store, keyed by Report id (spec 4.6).  On any error the store is returned
unchanged; on success the updated Report replaces the stored one. -/
def applyActionStore (store : List Report) (reportId : String)
    (a : WorkflowAction) (actorId : String) (notes : Option String)
    (timestamp : ℕ) : List Report × Except WorkflowError Report :=
  match store.find? (fun r => r.id == reportId) with
  | none => (store, .error .NotFound)
  | some r =>
      match applyAction r a actorId notes timestamp with
      | .error e => (store, .error e)
      | .ok r2 => (store.map (fun x => if x.id == reportId then r2 else x), .ok r2)

/-! ## Authority dashboard view logic (src/frontend/src/pages/AuthorityDashboard.jsx) -/

/-- Projection of a backend report as the dashboards consume it: only the
fields the embedded view logic reads. -/
structure UiReport where
  id : String
  status : String
  drone_status : Option String
  severity : String
deriving DecidableEq

/-- The `applyFilters` effect of AuthorityDashboard.jsx (lines 40-49): filter
by severity, then by primary status, each skipped on the sentinel "all". -/
def applyFilters (filterSeverity filterStatus : String) (reports : List UiReport) :
    List UiReport :=
  let f1 := if filterSeverity ≠ "all" then
      reports.filter (fun r => r.severity == filterSeverity)
    else reports
  if filterStatus ≠ "all" then f1.filter (fun r => r.status == filterStatus) else f1

/-- The inline predicate applied to `filteredReports` in the reports list of
AuthorityDashboard.jsx (lines 282-291): under the "In Progress" filter it also
accepts `drone_status === 'in_progress'`. -/
def listStatusPredicate (filterStatus : String) (report : UiReport) : Bool :=
  if filterStatus == "all" then true
  else if filterStatus == "In Progress" then
    report.status == "In Progress" || report.drone_status == some "in_progress"
  else report.status == filterStatus

/-- The reports actually rendered in the AuthorityDashboard list: the state
`filteredReports` (produced by `applyFilters`) further filtered by the inline
predicate. -/
def renderedReports (filterSeverity filterStatus : String)
    (reports : List UiReport) : List UiReport :=
  (applyFilters filterSeverity filterStatus reports).filter
    (listStatusPredicate filterStatus)

/-- The inline map marker colour of AuthorityDashboard.jsx (lines 180-185). -/
def markerColor (pothole : UiReport) : String :=
  if pothole.drone_status == some "in_progress" || pothole.status == "In Progress" then
    "yellow"
  else if pothole.status == "Resolved" || pothole.status == "Inspected" then "green"
  else "red"

/-- The `stats.inProgress` counter of AuthorityDashboard.jsx (lines 108-113):
counts primary status "In Progress" or "Inspected" only. -/
def statsInProgress (reports : List UiReport) : ℕ :=
  (reports.filter (fun r => r.status == "In Progress" || r.status == "Inspected")).length

/-- Badge configuration rendered by `getStatusBadge`. -/
structure BadgeCfg where
  color : String
  text : String
deriving DecidableEq

/-- Result of the JavaScript property read `statusMap[status]` on a plain
object literal: an own key yields its entry; a key naming a member inherited
from `Object.prototype` yields that member, which is truthy (a function, or
the prototype object itself for `__proto__`); any other key is undefined. -/
inductive PropValue where
  | entry (c : BadgeCfg)
  | protoMember
  | missing
deriving DecidableEq

/-- The property names every plain JavaScript object literal inherits from
`Object.prototype`, all of which evaluate to truthy values. -/
def objectPrototypeKeys : List String :=
  ["constructor", "hasOwnProperty", "isPrototypeOf", "propertyIsEnumerable",
   "toLocaleString", "toString", "valueOf", "__proto__",
   "__defineGetter__", "__defineSetter__", "__lookupGetter__", "__lookupSetter__"]

/-- The property read `statusMap[status]` on the status-badge object literal
(textually identical in AuthorityDashboard.jsx lines 87-93 and
CitizenDashboard.jsx lines 123-129): own keys first, then the
`Object.prototype` chain, else undefined. -/
def statusMapGet (status : String) : PropValue :=
  if status = "Pending" then .entry ⟨"bg-yellow-100 text-yellow-800", "Pending"⟩
  else if status = "Reported" then .entry ⟨"bg-blue-100 text-blue-800", "Reported"⟩
  else if status = "Inspected" then .entry ⟨"bg-purple-100 text-purple-800", "Inspected"⟩
  else if status = "In Progress" then .entry ⟨"bg-pink-100 text-pink-800", "In Progress"⟩
  else if status = "Resolved" then .entry ⟨"bg-green-100 text-green-800", "Resolved"⟩
  else if status ∈ objectPrototypeKeys then .protoMember
  else .missing

/-- The `config` chosen by `statusMap[status] || statusMap['Pending']` in
`getStatusBadge` of AuthorityDashboard.jsx (lines 86-96): undefined is the
only falsy case, so an inherited `Object.prototype` member bypasses the
fallback and is used as `config` (rendering undefined colour and text). -/
def authorityStatusBadge (status : String) : PropValue :=
  match statusMapGet status with
  | .missing => statusMapGet "Pending"
  | v => v

/-- The `config` chosen by `statusMap[status] || statusMap['Pending']` in
`getStatusBadge` of CitizenDashboard.jsx (lines 122-132), an identical map
and identical fallback expression. -/
def citizenStatusBadge (status : String) : PropValue :=
  match statusMapGet status with
  | .missing => statusMapGet "Pending"
  | v => v

/-! ## Concrete fixtures used by witnesses and counterexamples -/

/-- A freshly created report in the initial Pending state (spec 3: status
Pending, empty audit). -/
def rPending : Report :=
  { id := "r1", reporterId := "u1", location := "FC Road"
  , coordinates := ⟨18, 73⟩
  , detectionSummary := ⟨2, 637/20000, 85⟩
  , severity := .Minor, material := "Cold Patch Asphalt"
  , bagsRequired := 1, estimatedCostInr := 350
  , status := .Pending, droneStatus := .None
  , audit := [], processedImageUrl := "/img/r1.png", createdAt := 0 }

/-- A report that has reached the terminal Resolved state. -/
def rResolved : Report :=
  { rPending with id := "r2", status := .Resolved }

/-- The report `rPending` after a successful `notify_authorities` action. -/
def rPendingNotified : Report :=
  { rPending with
      status := .Reported,
      audit := [⟨"notify_authorities", "citizen1", none, 5⟩] }

/-- A dashboard report whose primary status is Pending while its drone
channel is in progress. -/
def rDroneOnly : UiReport := ⟨"p1", "Pending", some "in_progress", "Minor"⟩

/-! ## Claim theorems -/

/-- C1: every action applied to a Resolved report fails with `TerminalState`,
and any rejected action (IllegalTransition, TerminalState, or NotFound at the
store level) leaves the Report Store completely unchanged: the engine neither
auto-corrects nor silently no-ops a rejected transition. -/
theorem resolved_is_terminal_and_rejections_mutate_nothing :
    (∀ (r : Report) (a : WorkflowAction) (actorId : String) (notes : Option String) (ts : ℕ),
        r.status = .Resolved →
        applyAction r a actorId notes ts = .error .TerminalState)
    ∧ (∀ (store : List Report) (reportId : String) (a : WorkflowAction)
          (actorId : String) (notes : Option String) (ts : ℕ) (e : WorkflowError),
        (applyActionStore store reportId a actorId notes ts).2 = .error e →
        (applyActionStore store reportId a actorId notes ts).1 = store) := by
  constructor
  · intro r a actorId notes ts h
    simp [applyAction, transitionResult, h]
  · intro store reportId a actorId notes ts e h
    unfold applyActionStore at h ⊢
    cases hf : store.find? (fun r => r.id == reportId) with
    | none => simp [hf]
    | some r =>
        simp only [hf] at h ⊢
        cases ha : applyAction r a actorId notes ts with
        | error e2 => simp [ha]
        | ok r2 => simp [ha] at h

/-- C1 witness: a concrete Resolved report rejects `schedule_repair` with
`TerminalState` and the one-report store is untouched. -/
theorem resolved_is_terminal_witness :
    applyAction rResolved .schedule_repair "authority1" none 10 = .error .TerminalState
    ∧ (applyActionStore [rResolved] "r2" .schedule_repair "authority1" none 10).1 = [rResolved] :=
  ⟨resolved_is_terminal_and_rejections_mutate_nothing.1 rResolved .schedule_repair
      "authority1" none 10 rfl,
   resolved_is_terminal_and_rejections_mutate_nothing.2 [rResolved] "r2" .schedule_repair
      "authority1" none 10 .TerminalState rfl⟩

/-- C2: every successful `applyAction` appends exactly one AuditEntry and
changes no field of the Report other than `status`, `droneStatus` and
`audit`. -/
theorem applyAction_audit_and_frame (r : Report) (a : WorkflowAction)
    (actorId : String) (notes : Option String) (ts : ℕ) (r2 : Report)
    (h : applyAction r a actorId notes ts = .ok r2) :
    r2.audit.length = r.audit.length + 1
    ∧ r2.id = r.id ∧ r2.reporterId = r.reporterId ∧ r2.location = r.location
    ∧ r2.coordinates = r.coordinates ∧ r2.detectionSummary = r.detectionSummary
    ∧ r2.severity = r.severity ∧ r2.material = r.material
    ∧ r2.bagsRequired = r.bagsRequired ∧ r2.estimatedCostInr = r.estimatedCostInr
    ∧ r2.processedImageUrl = r.processedImageUrl ∧ r2.createdAt = r.createdAt := by
  unfold applyAction at h
  cases ht : transitionResult r a with
  | error e => rw [ht] at h; cases h
  | ok sd =>
      obtain ⟨s, d⟩ := sd
      rw [ht] at h
      simp only [Except.ok.injEq] at h
      subst h
      simp

/-- C2 witness: `notify_authorities` on the concrete Pending report appends
one entry and preserves every frame field. -/
theorem applyAction_audit_and_frame_witness :
    rPendingNotified.audit.length = rPending.audit.length + 1
    ∧ rPendingNotified.id = rPending.id ∧ rPendingNotified.reporterId = rPending.reporterId
    ∧ rPendingNotified.location = rPending.location
    ∧ rPendingNotified.coordinates = rPending.coordinates
    ∧ rPendingNotified.detectionSummary = rPending.detectionSummary
    ∧ rPendingNotified.severity = rPending.severity
    ∧ rPendingNotified.material = rPending.material
    ∧ rPendingNotified.bagsRequired = rPending.bagsRequired
    ∧ rPendingNotified.estimatedCostInr = rPending.estimatedCostInr
    ∧ rPendingNotified.processedImageUrl = rPending.processedImageUrl
    ∧ rPendingNotified.createdAt = rPending.createdAt :=
  applyAction_audit_and_frame rPending .notify_authorities "citizen1" none 5
    rPendingNotified (by rfl)

/-- C3 counterexample: on two detections of 50x40 px and 30x20 px in a
1000 px wide image the spec's own algorithm yields
`totalAreaM2 = 637/20000 = 0.03185`, which differs from the claimed value
0.00319 by more than 0.01 (a factor of ten), so the claimed scenario value
is false. -/
theorem scenario_one_total_area_refuted :
    computeMetrics [⟨50, 40⟩, ⟨30, 20⟩] 1000 = .ok ⟨2, 637/20000⟩
    ∧ (1:ℚ)/100 < 637/20000 - 319/100000 := by
  constructor
  · norm_num [computeMetrics, detectionAreaM2, LANE_WIDTH_M]
  · norm_num

/-- C3 amended: the two worked scenarios with the corrected intermediate
area: `metersPerPixel = 0.0035`, per-detection areas 0.0245 and 0.00735,
`totalAreaM2 = 0.03185`, severity Minor, 1 bag, 350 INR; and
`totalAreaM2 = 0.6` gives Severe, 6 bags, 3900 INR. -/
theorem pipeline_worked_scenarios :
    LANE_WIDTH_M / 1000 = (7:ℚ)/2000
    ∧ detectionAreaM2 ((7:ℚ)/2000) ⟨50, 40⟩ = 49/2000
    ∧ detectionAreaM2 ((7:ℚ)/2000) ⟨30, 20⟩ = 147/20000
    ∧ computeMetrics [⟨50, 40⟩, ⟨30, 20⟩] 1000 = .ok ⟨2, 637/20000⟩
    ∧ classify (637/20000) = .Minor
    ∧ (estimate .Minor (637/20000)).bagsRequired = 1
    ∧ (estimate .Minor (637/20000)).estimatedCostInr = 350
    ∧ classify (3/5) = .Severe
    ∧ (estimate .Severe (3/5)).bagsRequired = 6
    ∧ (estimate .Severe (3/5)).estimatedCostInr = 3900 := by
  have hb1 : (⌈(637:ℚ)/20000 / coveragePerBag .Minor⌉ : ℤ) = 1 := by
    norm_num [coveragePerBag, Int.ceil_eq_iff]
  have hb2 : (⌈(3:ℚ)/5 / coveragePerBag .Severe⌉ : ℤ) = 6 := by
    norm_num [coveragePerBag, Int.ceil_eq_iff]
  refine ⟨by norm_num [LANE_WIDTH_M], by norm_num [detectionAreaM2],
    by norm_num [detectionAreaM2],
    by norm_num [computeMetrics, detectionAreaM2, LANE_WIDTH_M],
    by norm_num [classify], ?_, ?_, by norm_num [classify], ?_, ?_⟩
  · show (⌈(637:ℚ)/20000 / coveragePerBag .Minor⌉ : ℤ) = 1
    exact hb1
  · show (⌈(637:ℚ)/20000 / coveragePerBag .Minor⌉ : ℚ) * costPerBag .Minor = 350
    rw [hb1]; norm_num [costPerBag]
  · show (⌈(3:ℚ)/5 / coveragePerBag .Severe⌉ : ℤ) = 6
    exact hb2
  · show (⌈(3:ℚ)/5 / coveragePerBag .Severe⌉ : ℚ) * costPerBag .Severe = 3900
    rw [hb2]; norm_num [costPerBag]

/-- C4: `classify` is a total deterministic partition of the non-negative
line with no gaps or overlaps: Minor exactly below 0.2, Moderate exactly on
[0.2, 0.5), Severe exactly on [0.5, 1), Critical exactly from 1 on. -/
theorem classify_total_partition (x : ℚ) (_hx : 0 ≤ x) :
    (classify x = .Minor ↔ x < 1/5)
    ∧ (classify x = .Moderate ↔ 1/5 ≤ x ∧ x < 1/2)
    ∧ (classify x = .Severe ↔ 1/2 ≤ x ∧ x < 1)
    ∧ (classify x = .Critical ↔ 1 ≤ x) := by
  unfold classify
  split_ifs with h1 h2 h3 <;> refine ⟨?_, ?_, ?_, ?_⟩ <;>
    simp_all <;> intros <;> linarith

/-- C4 witness: the partition instantiated at 0.3, which falls in the
Moderate band. -/
theorem classify_total_partition_witness :
    (classify (3/10) = .Minor ↔ (3:ℚ)/10 < 1/5)
    ∧ (classify (3/10) = .Moderate ↔ (1:ℚ)/5 ≤ 3/10 ∧ (3:ℚ)/10 < 1/2)
    ∧ (classify (3/10) = .Severe ↔ (1:ℚ)/2 ≤ 3/10 ∧ (3:ℚ)/10 < 1)
    ∧ (classify (3/10) = .Critical ↔ (1:ℚ) ≤ 3/10) :=
  classify_total_partition (3/10) (by norm_num)

/-- C5: for every severity and non-negative area, `estimate` uses the fixed
material table, computes `bagsRequired = ceil(area / coveragePerBag)`, at
least 1 bag for positive area, zero bags and zero cost for zero area, and
`estimatedCostInr = bagsRequired * costPerBag` in all cases. -/
theorem estimate_bags_and_cost (sev : Severity) (area : ℚ) (h : 0 ≤ area) :
    (estimate sev area).material = materialFor sev
    ∧ (estimate sev area).bagsRequired = ⌈area / coveragePerBag sev⌉
    ∧ (0 < area → 1 ≤ (estimate sev area).bagsRequired)
    ∧ (area = 0 → (estimate sev area).bagsRequired = 0 ∧ (estimate sev area).estimatedCostInr = 0)
    ∧ (estimate sev area).estimatedCostInr =
        ((estimate sev area).bagsRequired : ℚ) * costPerBag sev
    ∧ costPerBag .Minor = 350 ∧ coveragePerBag .Minor = 15/100
    ∧ costPerBag .Moderate = 480 ∧ coveragePerBag .Moderate = 12/100
    ∧ costPerBag .Severe = 650 ∧ coveragePerBag .Severe = 10/100
    ∧ costPerBag .Critical = 850 ∧ coveragePerBag .Critical = 8/100 := by
  refine ⟨rfl, rfl, ?_, ?_, rfl, by norm_num [costPerBag], by norm_num [coveragePerBag],
    by norm_num [costPerBag], by norm_num [coveragePerBag], by norm_num [costPerBag],
    by norm_num [coveragePerBag], by norm_num [costPerBag], by norm_num [coveragePerBag]⟩
  · intro hpos
    have hc := coveragePerBag_pos sev
    have hq : 0 < area / coveragePerBag sev := div_pos hpos hc
    have hz : 0 < ⌈area / coveragePerBag sev⌉ := Int.ceil_pos.mpr hq
    show (1:ℤ) ≤ ⌈area / coveragePerBag sev⌉
    omega
  · intro h0
    subst h0
    simp [estimate]

/-- C5 witness: the estimate contract instantiated at severity Severe and
area 0.6. -/
theorem estimate_bags_and_cost_witness :
    (0:ℚ) ≤ 3/5
    ∧ ((estimate .Severe (3/5)).material = materialFor .Severe
    ∧ (estimate .Severe (3/5)).bagsRequired = ⌈(3:ℚ)/5 / coveragePerBag .Severe⌉
    ∧ ((0:ℚ) < 3/5 → 1 ≤ (estimate .Severe (3/5)).bagsRequired)
    ∧ ((3:ℚ)/5 = 0 → (estimate .Severe (3/5)).bagsRequired = 0
        ∧ (estimate .Severe (3/5)).estimatedCostInr = 0)
    ∧ (estimate .Severe (3/5)).estimatedCostInr =
        ((estimate .Severe (3/5)).bagsRequired : ℚ) * costPerBag .Severe
    ∧ costPerBag .Minor = 350 ∧ coveragePerBag .Minor = 15/100
    ∧ costPerBag .Moderate = 480 ∧ coveragePerBag .Moderate = 12/100
    ∧ costPerBag .Severe = 650 ∧ coveragePerBag .Severe = 10/100
    ∧ costPerBag .Critical = 850 ∧ coveragePerBag .Critical = 8/100) :=
  ⟨by norm_num, estimate_bags_and_cost .Severe (3/5) (by norm_num)⟩

/-- C6: `computeMetrics` fails with `InvalidInput` exactly when the image
width is non-positive or some bbox dimension is negative; otherwise it
returns the detection count and the sum of `w * h * (3.5 / imageWidthPx)^2`
with no other scaling factor, and the empty detection list succeeds with
count 0 and area 0. -/
theorem computeMetrics_contract (detections : List BBox) (imageWidthPx : ℤ) :
    (computeMetrics detections imageWidthPx = .error .InvalidInput
      ↔ imageWidthPx ≤ 0 ∨ ∃ d ∈ detections, d.bboxWidthPx < 0 ∨ d.bboxHeightPx < 0)
    ∧ (¬(imageWidthPx ≤ 0 ∨ ∃ d ∈ detections, d.bboxWidthPx < 0 ∨ d.bboxHeightPx < 0) →
        computeMetrics detections imageWidthPx =
          .ok ⟨detections.length,
               (detections.map (fun d =>
                 d.bboxWidthPx * d.bboxHeightPx * (LANE_WIDTH_M / (imageWidthPx : ℚ))^2)).sum⟩)
    ∧ (0 < imageWidthPx → computeMetrics [] imageWidthPx = .ok ⟨0, 0⟩) := by
  refine ⟨?_, ?_, ?_⟩
  · unfold computeMetrics
    split_ifs with h <;> simp [h]
  · intro h
    unfold computeMetrics
    rw [if_neg h]
    rfl
  · intro h
    simp [computeMetrics, not_le.mpr h]

/-- C6 witness: an empty detection list with a positive image width succeeds
with zero count and zero area. -/
theorem computeMetrics_contract_witness :
    computeMetrics [] 100 = .ok ⟨0, 0⟩ :=
  (computeMetrics_contract [] 100).2.2 (by norm_num)

/-- C7: `notify_authorities` on a Pending-or-Reported report succeeds and
sets status Reported, and a second `notify_authorities` on the result is
again legal and a status no-op, so the status-level effect is idempotent. -/
theorem notify_authorities_idempotent (r : Report) (a1 a2 : String)
    (n1 n2 : Option String) (t1 t2 : ℕ)
    (h : r.status = .Pending ∨ r.status = .Reported) :
    ∃ r1 r2 : Report,
      applyAction r .notify_authorities a1 n1 t1 = .ok r1
      ∧ r1.status = .Reported
      ∧ applyAction r1 .notify_authorities a2 n2 t2 = .ok r2
      ∧ r2.status = .Reported ∧ r2.status = r1.status := by
  refine ⟨{ r with
            status := .Reported,
            audit := r.audit ++ [⟨actionTag .notify_authorities, a1, n1, t1⟩] },
          { r with
            status := .Reported,
            audit := (r.audit ++ [⟨actionTag .notify_authorities, a1, n1, t1⟩])
              ++ [⟨actionTag .notify_authorities, a2, n2, t2⟩] },
          ?_, rfl, ?_, rfl, rfl⟩
  · unfold applyAction transitionResult
    rcases h with h | h <;> rw [h] <;> simp
  · unfold applyAction transitionResult
    simp

/-- C7 witness: double notification on the concrete Pending report. -/
theorem notify_authorities_idempotent_witness :
    ∃ r1 r2 : Report,
      applyAction rPending .notify_authorities "c1" none 1 = .ok r1
      ∧ r1.status = .Reported
      ∧ applyAction r1 .notify_authorities "c2" none 2 = .ok r2
      ∧ r2.status = .Reported ∧ r2.status = r1.status :=
  notify_authorities_idempotent rPending "c1" "c2" none none 1 2 (Or.inl rfl)

/-- C9 counterexample: a report with primary status Pending and
`drone_status = in_progress` satisfies the inline list predicate, yet the
rendered 'In Progress' reports list is empty, because `applyFilters` has
already removed every report whose primary status is not 'In Progress'; so
the claim that the list filter matches such a report is false. -/
theorem inprogress_list_filter_refuted :
    listStatusPredicate "In Progress" rDroneOnly = true
    ∧ renderedReports "all" "In Progress" [rDroneOnly] = [] := by
  constructor
  · rfl
  · rfl

/-- C9 amended: the rendered 'In Progress' list contains exactly the reports
with primary status 'In Progress' (the inline drone disjunct is dead code
after `applyFilters`); the inline predicate alone does accept
`drone_status = in_progress`; the map colours a report yellow exactly when
its drone status is in_progress or its primary status is 'In Progress'; the
statistics counter counts only primary status 'In Progress' or 'Inspected';
and the concrete drone-only report is coloured yellow yet neither counted
in-progress nor shown in the 'In Progress' list. -/
theorem dashboard_views_inconsistent (rs : List UiReport) :
    renderedReports "all" "In Progress" rs = rs.filter (fun r => r.status == "In Progress")
    ∧ (∀ r : UiReport, listStatusPredicate "In Progress" r =
        (r.status == "In Progress" || r.drone_status == some "in_progress"))
    ∧ (∀ r : UiReport, markerColor r = "yellow" ↔
        (r.drone_status = some "in_progress" ∨ r.status = "In Progress"))
    ∧ statsInProgress rs =
        (rs.filter (fun r => r.status == "In Progress" || r.status == "Inspected")).length
    ∧ markerColor rDroneOnly = "yellow" ∧ statsInProgress [rDroneOnly] = 0
    ∧ renderedReports "all" "In Progress" [rDroneOnly] = [] := by
  refine ⟨?_, ?_, ?_, rfl, rfl, rfl, rfl⟩
  · have hs : applyFilters "all" "In Progress" rs =
        rs.filter (fun r => r.status == "In Progress") := by
      unfold applyFilters
      simp
    unfold renderedReports
    rw [hs, List.filter_filter]
    apply List.filter_congr
    intro a _
    by_cases h : (a.status == "In Progress") = true <;>
      simp [listStatusPredicate, h]
  · intro r
    simp [listStatusPredicate]
  · intro r
    unfold markerColor
    split_ifs with h1 h2 <;> simp_all

/-- C10 counterexample: at the unknown status "toString", both lookups
return the member inherited from `Object.prototype`, which is truthy, so the
`|| statusMap['Pending']` fallback is bypassed and the rendered badge is not
the Pending badge — refuting the universally quantified claim. -/
theorem prototype_key_bypasses_fallback :
    authorityStatusBadge "toString" = .protoMember
    ∧ citizenStatusBadge "toString" = .protoMember
    ∧ authorityStatusBadge "toString" ≠ .entry ⟨"bg-yellow-100 text-yellow-800", "Pending"⟩
    ∧ citizenStatusBadge "toString" ≠ .entry ⟨"bg-yellow-100 text-yellow-800", "Pending"⟩ :=
  ⟨rfl, rfl, by decide, by decide⟩

/-- C10 amended: for every status string that is neither one of the five
known statuses nor the name of an `Object.prototype` member, the
`getStatusBadge` of both dashboards silently falls back to the Pending badge
configuration; for a status naming an `Object.prototype` member the lookup
returns the inherited truthy member, bypassing the fallback, so the badge
renders with undefined colour and text instead of the Pending badge. -/
theorem unknown_status_badge_fallback (s : String)
    (h : s ∉ ["Pending", "Reported", "Inspected", "In Progress", "Resolved"]) :
    (s ∉ objectPrototypeKeys →
      authorityStatusBadge s = .entry ⟨"bg-yellow-100 text-yellow-800", "Pending"⟩
      ∧ citizenStatusBadge s = .entry ⟨"bg-yellow-100 text-yellow-800", "Pending"⟩)
    ∧ (s ∈ objectPrototypeKeys →
      authorityStatusBadge s = .protoMember
      ∧ citizenStatusBadge s = .protoMember) := by
  simp only [List.mem_cons, List.mem_singleton, not_or] at h
  obtain ⟨h1, h2, h3, h4, h5⟩ := h
  constructor
  · intro hp
    constructor <;>
      simp [authorityStatusBadge, citizenStatusBadge, statusMapGet,
        h1, h2, h3, h4, h5, hp]
  · intro hp
    constructor <;>
      simp [authorityStatusBadge, citizenStatusBadge, statusMapGet,
        h1, h2, h3, h4, h5, hp]

/-- C10 witness: the Pending fallback at the concrete unknown,
non-prototype status "Unknown". -/
theorem unknown_status_badge_fallback_witness :
    authorityStatusBadge "Unknown" = .entry ⟨"bg-yellow-100 text-yellow-800", "Pending"⟩
    ∧ citizenStatusBadge "Unknown" = .entry ⟨"bg-yellow-100 text-yellow-800", "Pending"⟩ :=
  (unknown_status_badge_fallback "Unknown" (by decide)).1 (by decide)

end PotholeWatch
